import Mathlib

set_option maxRecDepth 4000

/-!
Shallow embedding of the conversation context manager and chat orchestrator
from `python-backend/chat_service.py` and `python-backend/deepseek_client.py`.

Conventions of the embedding:
* Python `datetime.now()` is modelled by an explicit `now : Nat` argument.
* `uuid.uuid4()` is modelled by explicit fresh-identifier arguments.
* The session dictionary `self.sessions` is an association list with Python
  dict semantics: assignment to an existing key updates in place, assignment
  to a new key appends at the end.
* Floating point temperatures (0.1 .. 0.7) are modelled exactly in tenths
  of a unit (1 .. 7); the code only stores and forwards them, never computes
  with them, so the scaled-integer encoding is faithful and injective.
* The network client `DeepSeekClient.chat_completion` is the external
  model-invocation collaborator; it is a parameter of type
  `InvokeArgs → Except String DeepSeekResponse` (an exception is a message
  string, as in Python where the handler looks only at `str(e)`).
-/

namespace ChatServiceModel

/-- One conversational turn, mirroring dataclass `ChatMessage`
(`chat_service.py` lines 8-29).  The `timestamp` is the `Nat` clock value at
construction; `thinking` is the optional reasoning trace. -/
structure ChatMessage where
  id : String
  role : String
  content : String
  thinking : Option String := none
  timestamp : Nat := 0
  tokens : Nat := 0
deriving Repr, DecidableEq

/-- One conversation, mirroring dataclass `ChatSession`
(`chat_service.py` lines 31-46). -/
structure ChatSession where
  session_id : String
  messages : List ChatMessage
  created_at : Nat
  last_active : Nat
  max_context_tokens : Nat := 6000
deriving Repr, DecidableEq

/-- The session store, mirroring `ChatContextManager.__init__`
(`chat_service.py` lines 51-53): a configured default budget plus the
session dictionary. -/
structure ChatContextManager where
  max_context_tokens : Nat := 6000
  sessions : List (String × ChatSession) := []
deriving Repr, DecidableEq

/-- `ChatContextManager._estimate_tokens` (line 100-102):
`len(text) // 4`. -/
def estimateTokens (text : String) : Nat :=
  text.length / 4

/-- Sum of `_estimate_tokens(msg.content)` over a message list — the running
total computed by the first loop of `_truncate_context` (lines 108-110). -/
def totalTokens (msgs : List ChatMessage) : Nat :=
  (msgs.map (fun m => estimateTokens m.content)).sum

/-- The `while` loop of `ChatContextManager._truncate_context`
(lines 112-116): while the total estimate exceeds the budget and more than
one message remains, pop the oldest message (index 0) and subtract its
estimate. -/
def truncateFrom (budget : Nat) : List ChatMessage → List ChatMessage
  | [] => []
  | [m] => [m]
  | m :: m₂ :: rest =>
      if totalTokens (m :: m₂ :: rest) > budget then
        truncateFrom budget (m₂ :: rest)
      else
        m :: m₂ :: rest

/-- Python dict assignment `self.sessions[session_id] = session`: replace the
value at an existing key in place, otherwise append the new binding. -/
def insertSession (sid : String) (s : ChatSession) :
    List (String × ChatSession) → List (String × ChatSession)
  | [] => [(sid, s)]
  | (k, v) :: rest =>
      if k = sid then (k, s) :: rest else (k, v) :: insertSession sid s rest

/-- `ChatContextManager.create_session` (lines 55-69).  `session_id = none`
models Python `None`, in which case the generated uuid `fresh` is used.
Returns the updated manager and the returned session id.  Note the source
assigns `self.sessions[session_id] = session` unconditionally. -/
def create_session (m : ChatContextManager) (session_id : Option String)
    (fresh : String) (now : Nat) : ChatContextManager × String :=
  let sid := session_id.getD fresh
  let s : ChatSession :=
    { session_id := sid
      messages := []
      created_at := now
      last_active := now
      max_context_tokens := m.max_context_tokens }
  ({ m with sessions := insertSession sid s m.sessions }, sid)

/-- `ChatContextManager.add_message` (lines 71-81): auto-create the session
if unknown, append the message at the tail, update `last_active`, then run
`_truncate_context` (which uses the manager budget `self.max_context_tokens`). -/
def add_message (m : ChatContextManager) (session_id : String)
    (message : ChatMessage) (now : Nat) : ChatContextManager :=
  let m₁ :=
    if (m.sessions.lookup session_id).isNone then
      (create_session m (some session_id) session_id now).1
    else m
  match m₁.sessions.lookup session_id with
  | none => m₁
  | some s =>
      let s' : ChatSession :=
        { s with
          messages := truncateFrom m₁.max_context_tokens (s.messages ++ [message])
          last_active := now }
      { m₁ with sessions := insertSession session_id s' m₁.sessions }

/-- The `{role, content}` projection used by `get_context_messages`
(lines 90-96) and sent to the API. -/
structure ApiMessage where
  role : String
  content : String
deriving Repr, DecidableEq

/-- `ChatContextManager.get_context_messages` (lines 83-98): empty list for
an unknown session, otherwise the role/content projection in stored order. -/
def get_context_messages (m : ChatContextManager) (session_id : String) :
    List ApiMessage :=
  match m.sessions.lookup session_id with
  | none => []
  | some s => s.messages.map (fun msg => { role := msg.role, content := msg.content })

/-- The messages of the session stored under `sid`, or `[]` if absent
(a convenience accessor for stating properties). -/
def sessionMessages (m : ChatContextManager) (sid : String) : List ChatMessage :=
  ((m.sessions.lookup sid).map ChatSession.messages).getD []

/-- `ChatService.get_chat_history` projection record (lines 290-309). -/
structure HistoryEntry where
  id : String
  role : String
  content : String
  thinking : Option String
  timestamp : Nat
  tokens : Nat
deriving Repr, DecidableEq

/-- `ChatService.get_chat_history` (lines 290-309): empty for an unknown
session; otherwise the entries for messages whose role is `user` or
`assistant`, in stored order. -/
def get_chat_history (m : ChatContextManager) (session_id : String) :
    List HistoryEntry :=
  match m.sessions.lookup session_id with
  | none => []
  | some s =>
      (s.messages.filter (fun msg => msg.role == "user" || msg.role == "assistant")).map
        (fun msg =>
          { id := msg.id, role := msg.role, content := msg.content,
            thinking := msg.thinking, timestamp := msg.timestamp,
            tokens := msg.tokens })

/-- `ChatService.clear_session` (lines 311-316): delete the session if
present, reporting whether a deletion occurred. -/
def clear_session (m : ChatContextManager) (session_id : String) :
    ChatContextManager × Bool :=
  if (m.sessions.lookup session_id).isSome then
    ({ m with sessions := m.sessions.filter (fun p => p.1 != session_id) }, true)
  else
    (m, false)

/-! ### The DeepSeek client (`deepseek_client.py`)

`DeepSeekClient.chat_completion` performs the network request; everything the
orchestrator feeds it is collected here in `InvokeArgs`.  The request itself
is the external collaborator, a parameter of the model. -/

/-- The response dataclass `DeepSeekResponse` (`deepseek_client.py` lines
8-13), restricted to the fields the service reads. -/
structure DeepSeekResponse where
  content : String
  thinking : Option String := none
deriving Repr, DecidableEq

/-- What `chat_completion` (`deepseek_client.py` lines 32-61) puts into the
request: the message list, `temperature`, `max_tokens` and the
`enable_thinking` flag. -/
structure InvokeArgs where
  messages : List ApiMessage
  temperature : Nat
  max_tokens : Nat
  enable_thinking : Bool
deriving Repr, DecidableEq

/-- The external model-invocation collaborator: succeeds with a response or
fails with an exception message (Python `str(e)`). -/
def Collaborator : Type := InvokeArgs → Except String DeepSeekResponse

/-- The message list built by `DeepSeekClient.simple_chat`
(`deepseek_client.py` lines 123-128): optional system message (only when the
prompt is truthy, i.e. present and non-empty), then the user message. -/
def simpleChatMessages (user_message : String) (system_prompt : Option String) :
    List ApiMessage :=
  (match system_prompt with
   | some sp => if sp.length != 0 then [{ role := "system", content := sp }] else []
   | none => []) ++ [{ role := "user", content := user_message }]

/-- `DeepSeekClient.simple_chat` (lines 112-131): builds its own message
list and calls `chat_completion` with `enable_thinking = False` and the
defaults `temperature = 0.7`, `max_tokens = 4000`. -/
def simple_chat (invoke : Collaborator) (user_message : String)
    (system_prompt : Option String) : Except String String :=
  (invoke
    { messages := simpleChatMessages user_message system_prompt
      temperature := 7
      max_tokens := 4000
      enable_thinking := false }).map DeepSeekResponse.content

/-- The fallback system prompt of `thinking_chat` (lines 149-156). -/
def defaultThinkingSystem : String :=
  "You are DeepSeek-V3.1, an advanced AI assistant. \nWhen thinking mode is enabled, you should:\n1. Break down complex problems step by step\n2. Show your reasoning process clearly\n3. Consider multiple approaches\n4. Explain your final decision\n\nThink through the problem carefully before providing your final response."

/-- The message list built by `DeepSeekClient.thinking_chat` (lines
158-161): always a system message (the given prompt if truthy, otherwise the
built-in fallback), then the user message. -/
def thinkingChatMessages (user_message : String) (system_prompt : Option String) :
    List ApiMessage :=
  let sys :=
    match system_prompt with
    | some sp => if sp.length != 0 then sp else defaultThinkingSystem
    | none => defaultThinkingSystem
  [{ role := "system", content := sys }, { role := "user", content := user_message }]

/-- The fallback of `thinking_chat` line 165:
`response.thinking or "No thinking process available"` (Python `or`, so an
absent or empty trace falls back to the placeholder). -/
def thinkingFallback (th : Option String) : String :=
  match th with
  | some t => if t.length != 0 then t else "No thinking process available"
  | none => "No thinking process available"

/-- `DeepSeekClient.thinking_chat` (lines 133-165): builds its own message
list and calls `chat_completion` with `enable_thinking = True`, hard-coded
`temperature = 0.3` and the default `max_tokens = 4000`; the returned
thinking trace falls back to a placeholder when absent or empty. -/
def thinking_chat (invoke : Collaborator) (user_message : String)
    (system_prompt : Option String) : Except String (String × String) :=
  (invoke
    { messages := thinkingChatMessages user_message system_prompt
      temperature := 3
      max_tokens := 4000
      enable_thinking := true }).map
    (fun r => (r.content, thinkingFallback r.thinking))

/-! ### The orchestrator (`ChatService`, `chat_service.py` lines 131-288) -/

/-- One mode profile of `ChatService.prompt_templates` (lines 139-195):
system prompt text, temperature and the thinking flag. -/
structure PromptTemplate where
  system : String
  temperature : Nat
  thinking : Bool
deriving Repr, DecidableEq

/-- The `fast_code` profile (lines 140-156). -/
def fastCodeTemplate : PromptTemplate :=
  { system := "You are an expert software engineer focused on fast, accurate code generation.\n                \nGUIDELINES:\n- Generate clean, working code immediately\n- Use best practices and established patterns\n- Include brief inline comments for clarity\n- Prioritize correctness and readability\n- Provide complete, runnable solutions\n\nRESPONSE FORMAT:\n- Start with a brief explanation (1-2 lines)\n- Provide the complete code\n- End with usage instructions if needed"
    temperature := 3
    thinking := false }

/-- The `deep_reasoning` profile (lines 158-175). -/
def deepReasoningTemplate : PromptTemplate :=
  { system := "You are an expert software architect and problem solver.\n\nWhen analyzing complex problems:\n1. Break down the problem into core components\n2. Identify potential solutions and their trade-offs\n3. Consider scalability, maintainability, and performance\n4. Recommend the best approach with clear reasoning\n5. Provide implementation guidance\n\nTHINKING PROCESS:\n- Analyze requirements systematically\n- Consider edge cases and failure modes\n- Evaluate architectural implications\n- Think through the complete solution lifecycle"
    temperature := 2
    thinking := true }

/-- The `code_review` profile (lines 177-194). -/
def codeReviewTemplate : PromptTemplate :=
  { system := "You are a senior code reviewer focused on quality, security, and best practices.\n\nREVIEW CRITERIA:\n1. **Code Quality**: Readability, maintainability, adherence to standards\n2. **Performance**: Efficiency, scalability, resource usage\n3. **Security**: Vulnerabilities, input validation, data handling\n4. **Architecture**: Design patterns, separation of concerns, modularity\n5. **Testing**: Testability, edge cases, error handling\n\nREVIEW FORMAT:\n✅ **Strengths**: What's done well\n⚠️ **Issues**: Problems found (categorized by severity)\n🔧 **Recommendations**: Specific improvements with code examples\n📝 **Summary**: Overall assessment and priority actions"
    temperature := 1
    thinking := true }

/-- The dictionary `self.prompt_templates` as a keyed lookup. -/
def promptTemplates (mode : String) : Option PromptTemplate :=
  if mode == "fast_code" then some fastCodeTemplate
  else if mode == "deep_reasoning" then some deepReasoningTemplate
  else if mode == "code_review" then some codeReviewTemplate
  else none

/-- `self.prompt_templates.get(mode, self.prompt_templates["fast_code"])`
(line 224): unknown modes fall back to the `fast_code` profile. -/
def getTemplate (mode : String) : PromptTemplate :=
  (promptTemplates mode).getD fastCodeTemplate

/-- Python `str.lower()` on the exception text (line 276), character-wise
(written over the character list so it evaluates by reduction). -/
def strLower (s : String) : String :=
  String.mk (s.data.map Char.toLower)

/-- Substring test on character lists (Python `needle in haystack`). -/
def containsSub : List Char → List Char → Bool
  | [], needle => needle.isEmpty
  | h :: t, needle => needle.isPrefixOf (h :: t) || containsSub t needle

/-- Python substring containment `needle in hay` for strings. -/
def strContains (hay needle : String) : Bool :=
  containsSub hay.data needle.data

/-- The error-categorization cascade of `ChatService.send_message`
(lines 275-287): returns `(error_type, retry_after)`. -/
def categorizeError (e : String) : String × Option Nat :=
  let s := strLower e
  if strContains s "rate limit" || strContains s "429" then ("rate_limit", some 60)
  else if strContains s "invalid api key" || strContains s "401" then ("auth_error", none)
  else if strContains s "timeout" || strContains s "504" then ("timeout", some 30)
  else ("unknown", none)

/-- The dictionary returned by `ChatService.send_message`: either the
success payload (lines 256-265) or the failure payload (lines 268-288). -/
inductive TurnResult where
  | success (message_id response : String) (thinking : Option String)
      (mode session_id : String) (context_length tokens_used : Nat)
  | failure (error session_id mode error_type : String) (retry_after : Option Nat)
deriving Repr, DecidableEq

/-- Lines 207-209 of `send_message`: get or create the session. -/
def ensure_session (m : ChatContextManager) (session_id : String) (now : Nat) :
    ChatContextManager :=
  if (m.sessions.lookup session_id).isNone then
    (create_session m (some session_id) session_id now).1
  else m

/-- Lines 212-217 of `send_message`: the user `ChatMessage` constructed from
`user_message`. -/
def mkUserMessage (uidUser user_message : String) (now : Nat) : ChatMessage :=
  { id := uidUser, role := "user", content := user_message,
    thinking := none, timestamp := now, tokens := estimateTokens user_message }

/-- Line 225 of `send_message`:
`custom_system_prompt or template["system"]` (Python truthy `or`). -/
def resolveSystemPrompt (custom : Option String) (template : PromptTemplate) :
    String :=
  match custom with
  | some c => if c.length != 0 then c else template.system
  | none => template.system

/-- Lines 227-231 of `send_message`: prepend a system message to the
assembled context exactly when it holds one message (the first turn). -/
def outboundContext (ctx : List ApiMessage) (system_prompt : String) :
    List ApiMessage :=
  if ctx.length == 1 then { role := "system", content := system_prompt } :: ctx
  else ctx

/-- Lines 233-244 of `send_message`: the actual call to the DeepSeek client,
dispatching on the profile's thinking flag.  Note both branches pass only
`user_message` and `system_prompt` down to the client. -/
def callCollaborator (invoke : Collaborator) (thinking : Bool)
    (user_message system_prompt : String) :
    Except String (String × Option String) :=
  if thinking then
    (thinking_chat invoke user_message (some system_prompt)).map
      (fun p => (p.1, some p.2))
  else
    (simple_chat invoke user_message (some system_prompt)).map
      (fun c => (c, none))

/-- `ChatService.send_message` (lines 197-288).  `uidUser` / `uidAssistant`
model the two `uuid.uuid4()` draws; `now` the clock.  Returns the updated
store together with the result dictionary.  Note that the code passes only
`user_message` and `system_prompt` to `simple_chat` / `thinking_chat`
(lines 234-244); the assembled `context_messages` list is used solely for
its length in the success payload. -/
def send_message (invoke : Collaborator) (m : ChatContextManager)
    (session_id user_message mode : String) (custom_system_prompt : Option String)
    (uidUser uidAssistant : String) (now : Nat) :
    ChatContextManager × TurnResult :=
  let m₁ := ensure_session m session_id now
  let user_msg := mkUserMessage uidUser user_message now
  let m₂ := add_message m₁ session_id user_msg now
  let context₀ := get_context_messages m₂ session_id
  let template := getTemplate mode
  let system_prompt := resolveSystemPrompt custom_system_prompt template
  let context_messages := outboundContext context₀ system_prompt
  match callCollaborator invoke template.thinking user_message system_prompt with
  | .ok (response_content, thinking) =>
      let assistant_msg : ChatMessage :=
        { id := uidAssistant, role := "assistant", content := response_content,
          thinking := thinking, timestamp := now,
          tokens := estimateTokens response_content }
      let m₃ := add_message m₂ session_id assistant_msg now
      (m₃, .success uidAssistant response_content thinking mode session_id
             context_messages.length assistant_msg.tokens)
  | .error e =>
      let c := categorizeError e
      (m₂, .failure e session_id mode c.1 c.2)

/-- The store a fresh `ChatService` owns (`__init__`, line 136):
`ChatContextManager()` with the default budget and no sessions. -/
def freshManager : ChatContextManager := {}

/-- One state-changing operation of `ChatService`
(`send_message` or `clear_session`). -/
inductive ServiceOp where
  | send (invoke : Collaborator) (session_id user_message mode : String)
      (custom_system_prompt : Option String) (uidUser uidAssistant : String) (now : Nat)
  | clear (session_id : String)

/-- Apply one `ServiceOp` to the store. -/
def runOp (m : ChatContextManager) : ServiceOp → ChatContextManager
  | .send invoke sid u mode custom uu ua now =>
      (send_message invoke m sid u mode custom uu ua now).1
  | .clear sid => (clear_session m sid).1

/-- Apply a sequence of `ServiceOp`s in order. -/
def runOps (m : ChatContextManager) (ops : List ServiceOp) : ChatContextManager :=
  ops.foldl runOp m

/-- A sequence of `appendMessage` calls `(sessionId, message, now)` applied in
order, modelling repeated `ChatContextManager.add_message`. -/
def runAppends (m : ChatContextManager) :
    List (String × ChatMessage × Nat) → ChatContextManager
  | [] => m
  | (sid, msg, now) :: rest => runAppends (add_message m sid msg now) rest

/-! ### Helper lemmas about eviction and the session map -/

theorem truncateFrom_suffix (budget : Nat) (l : List ChatMessage) :
    truncateFrom budget l <:+ l := by
  induction l with
  | nil => simp [truncateFrom]
  | cons m rest ih =>
      cases rest with
      | nil => simp [truncateFrom]
      | cons m₂ rest₂ =>
          rw [truncateFrom]
          split
          · exact ih.trans (List.suffix_cons m (m₂ :: rest₂))
          · exact List.suffix_refl _

theorem truncateFrom_ne_nil (budget : Nat) (l : List ChatMessage) (h : l ≠ []) :
    truncateFrom budget l ≠ [] := by
  induction l with
  | nil => exact absurd rfl h
  | cons m rest ih =>
      cases rest with
      | nil => simp [truncateFrom]
      | cons m₂ rest₂ =>
          rw [truncateFrom]
          split
          · exact ih (by simp)
          · simp

theorem totalTokens_truncateFrom (budget : Nat) (l : List ChatMessage) :
    totalTokens (truncateFrom budget l) ≤ budget ∨
      (truncateFrom budget l).length = 1 := by
  induction l with
  | nil =>
      left
      simp [truncateFrom, totalTokens]
  | cons m rest ih =>
      cases rest with
      | nil =>
          by_cases h : totalTokens [m] ≤ budget
          · left
            simpa [truncateFrom] using h
          · right
            simp [truncateFrom]
      | cons m₂ rest₂ =>
          rw [truncateFrom]
          split
          · exact ih
          · left
            omega

theorem truncateFrom_of_le (budget : Nat) (l : List ChatMessage)
    (h : totalTokens l ≤ budget) : truncateFrom budget l = l := by
  cases l with
  | nil => rfl
  | cons m rest =>
      cases rest with
      | nil => rfl
      | cons m₂ rest₂ =>
          rw [truncateFrom, if_neg (by omega)]

theorem getLast?_truncateFrom (budget : Nat) (l : List ChatMessage) (h : l ≠ []) :
    (truncateFrom budget l).getLast? = l.getLast? := by
  obtain ⟨t, ht⟩ := truncateFrom_suffix budget l
  conv_rhs => rw [← ht]
  rw [List.getLast?_append_of_ne_nil t (truncateFrom_ne_nil budget l h)]

theorem lookup_insertSession_self (sid : String) (s : ChatSession)
    (l : List (String × ChatSession)) :
    (insertSession sid s l).lookup sid = some s := by
  induction l with
  | nil => simp [insertSession, List.lookup]
  | cons p rest ih =>
      obtain ⟨k, v⟩ := p
      by_cases h : k = sid
      · simp [insertSession, h, List.lookup]
      · simp only [insertSession, if_neg h, List.lookup]
        rw [show (sid == k) = false by simpa using fun hh => h hh.symm]
        exact ih

theorem lookup_insertSession_ne (sid sid' : String) (s : ChatSession)
    (l : List (String × ChatSession)) (h : sid' ≠ sid) :
    (insertSession sid s l).lookup sid' = l.lookup sid' := by
  induction l with
  | nil =>
      simp only [insertSession, List.lookup]
      rw [show (sid' == sid) = false by simpa using h]
  | cons p rest ih =>
      obtain ⟨k, v⟩ := p
      by_cases hk : k = sid
      · subst hk
        simp only [insertSession, if_pos rfl, List.lookup]
        rw [show (sid' == k) = false by simpa using h]
      · simp only [insertSession, if_neg hk, List.lookup]
        cases hkk : (sid' == k) with
        | true => rfl
        | false => exact ih

theorem mem_insertSession (sid : String) (s : ChatSession)
    (l : List (String × ChatSession)) (p : String × ChatSession)
    (h : p ∈ insertSession sid s l) : p.2 = s ∨ p ∈ l := by
  induction l with
  | nil =>
      simp only [insertSession, List.mem_singleton] at h
      left
      rw [h]
  | cons q rest ih =>
      obtain ⟨k, v⟩ := q
      by_cases hk : k = sid
      · simp only [insertSession, if_pos hk, List.mem_cons] at h
        rcases h with h | h
        · left; rw [h]
        · right; exact List.mem_cons_of_mem _ h
      · simp only [insertSession, if_neg hk, List.mem_cons] at h
        rcases h with h | h
        · right; rw [h]; exact List.mem_cons_self _ _
        · rcases ih h with h' | h'
          · left; exact h'
          · right; exact List.mem_cons_of_mem _ h'

theorem mem_of_lookup_eq_some (sid : String) (s : ChatSession)
    (l : List (String × ChatSession)) (h : l.lookup sid = some s) :
    (sid, s) ∈ l := by
  induction l with
  | nil => simp [List.lookup] at h
  | cons p rest ih =>
      obtain ⟨k, v⟩ := p
      rw [List.lookup] at h
      cases hk : (sid == k) with
      | true =>
          rw [hk] at h
          simp only [Option.some.injEq] at h
          have : sid = k := by simpa using hk
          rw [this, h]
          exact List.mem_cons_self _ _
      | false =>
          rw [hk] at h
          exact List.mem_cons_of_mem _ (ih h)

theorem add_message_eq_none (m : ChatContextManager) (sid : String)
    (msg : ChatMessage) (now : Nat) (h : m.sessions.lookup sid = none) :
    add_message m sid msg now =
      { m with sessions := (insertSession sid
          ({ session_id := sid,
             messages := truncateFrom m.max_context_tokens [msg],
             created_at := now, last_active := now,
             max_context_tokens := m.max_context_tokens })
          (insertSession sid
            ({ session_id := sid, messages := [], created_at := now,
               last_active := now, max_context_tokens := m.max_context_tokens })
            m.sessions)) } := by
  unfold add_message create_session
  simp [h, lookup_insertSession_self]

theorem add_message_eq_some (m : ChatContextManager) (sid : String)
    (msg : ChatMessage) (now : Nat) (s : ChatSession)
    (h : m.sessions.lookup sid = some s) :
    add_message m sid msg now =
      { m with sessions := (insertSession sid
          ({ s with
             messages := truncateFrom m.max_context_tokens (s.messages ++ [msg]),
             last_active := now })
          m.sessions) } := by
  unfold add_message
  simp [h]

theorem sessionMessages_add_message (m : ChatContextManager) (sid : String)
    (msg : ChatMessage) (now : Nat) :
    sessionMessages (add_message m sid msg now) sid =
      truncateFrom m.max_context_tokens (sessionMessages m sid ++ [msg]) := by
  cases h : m.sessions.lookup sid with
  | none =>
      rw [add_message_eq_none m sid msg now h]
      simp [sessionMessages, lookup_insertSession_self, h]
  | some s =>
      rw [add_message_eq_some m sid msg now s h]
      simp [sessionMessages, lookup_insertSession_self, h]

/-- Every stored session's own `max_context_tokens` equals the manager's
configured budget (true of every store reachable through the API, since
`create_session` copies the manager budget into the session). -/
def budgetsAligned (m : ChatContextManager) : Prop :=
  ∀ p ∈ m.sessions, p.2.max_context_tokens = m.max_context_tokens

/-- The eviction invariant of the spec: every stored session's total
estimated tokens is within its own budget, or it holds exactly one
message. -/
def evictionInv (m : ChatContextManager) : Prop :=
  ∀ p ∈ m.sessions,
    totalTokens p.2.messages ≤ p.2.max_context_tokens ∨ p.2.messages.length = 1

theorem budgetsAligned_add (m : ChatContextManager) (sid : String)
    (msg : ChatMessage) (now : Nat) (h : budgetsAligned m) :
    budgetsAligned (add_message m sid msg now) := by
  cases hl : m.sessions.lookup sid with
  | none =>
      rw [add_message_eq_none m sid msg now hl]
      intro p hp
      rcases mem_insertSession _ _ _ _ hp with h1 | h1
      · rw [h1]
      · rcases mem_insertSession _ _ _ _ h1 with h2 | h2
        · rw [h2]
        · exact h p h2
  | some s =>
      rw [add_message_eq_some m sid msg now s hl]
      intro p hp
      rcases mem_insertSession _ _ _ _ hp with h1 | h1
      · rw [h1]
        exact h (sid, s) (mem_of_lookup_eq_some sid s m.sessions hl)
      · exact h p h1

theorem evictionInv_add (m : ChatContextManager) (sid : String)
    (msg : ChatMessage) (now : Nat) (ha : budgetsAligned m) (h : evictionInv m) :
    evictionInv (add_message m sid msg now) := by
  cases hl : m.sessions.lookup sid with
  | none =>
      rw [add_message_eq_none m sid msg now hl]
      intro p hp
      rcases mem_insertSession _ _ _ _ hp with h1 | h1
      · rw [h1]
        exact totalTokens_truncateFrom m.max_context_tokens [msg]
      · rcases mem_insertSession _ _ _ _ h1 with h2 | h2
        · rw [h2]
          left
          simp [totalTokens]
        · exact h p h2
  | some s =>
      rw [add_message_eq_some m sid msg now s hl]
      intro p hp
      rcases mem_insertSession _ _ _ _ hp with h1 | h1
      · rw [h1]
        have hb : s.max_context_tokens = m.max_context_tokens :=
          ha (sid, s) (mem_of_lookup_eq_some sid s m.sessions hl)
        simp only [hb]
        exact totalTokens_truncateFrom m.max_context_tokens (s.messages ++ [msg])
      · exact h p h1

theorem evictionInv_runAppends (m : ChatContextManager)
    (calls : List (String × ChatMessage × Nat))
    (ha : budgetsAligned m) (h : evictionInv m) :
    budgetsAligned (runAppends m calls) ∧ evictionInv (runAppends m calls) := by
  induction calls generalizing m with
  | nil => exact ⟨ha, h⟩
  | cons c rest ih =>
      obtain ⟨sid, msg, now⟩ := c
      exact ih (add_message m sid msg now)
        (budgetsAligned_add m sid msg now ha)
        (evictionInv_add m sid msg now ha h)

theorem sessionMessages_ensure_session (m : ChatContextManager) (sid : String)
    (now : Nat) :
    sessionMessages (ensure_session m sid now) sid = sessionMessages m sid := by
  unfold ensure_session
  cases h : m.sessions.lookup sid with
  | none => simp [h, sessionMessages, create_session, lookup_insertSession_self]
  | some s => simp [h, sessionMessages]

theorem max_ensure_session (m : ChatContextManager) (sid : String) (now : Nat) :
    (ensure_session m sid now).max_context_tokens = m.max_context_tokens := by
  unfold ensure_session
  split
  · rfl
  · rfl

theorem callCollaborator_error (e : String) (thinking : Bool)
    (u sp : String) :
    callCollaborator (fun _ => Except.error e) thinking u sp = Except.error e := by
  unfold callCollaborator thinking_chat simple_chat
  cases thinking <;> rfl

theorem send_message_fail (e : String) (m : ChatContextManager)
    (sid u mode : String) (custom : Option String) (uu ua : String) (now : Nat) :
    send_message (fun _ => Except.error e) m sid u mode custom uu ua now =
      (add_message (ensure_session m sid now) sid (mkUserMessage uu u now) now,
       TurnResult.failure e sid mode (categorizeError e).1 (categorizeError e).2) := by
  unfold send_message
  simp only [callCollaborator_error]

/-! ### Claim theorems -/

/-- C1: for every configured token budget and every sequence of
`add_message` (appendMessage) calls against a fresh store, in the state
reached after the calls — and hence immediately after each append, since
every prefix of the sequence is itself such a sequence — every stored
session's total estimated tokens is at most the session's own
`max_context_tokens` (its tokenBudget), or the session holds exactly one
message. -/
theorem claim_c1_eviction_invariant (budget : Nat)
    (calls : List (String × ChatMessage × Nat)) :
    evictionInv
      (runAppends { max_context_tokens := budget, sessions := [] } calls) := by
  refine (evictionInv_runAppends _ calls ?_ ?_).2
  · intro p hp
    simp at hp
  · intro p hp
    simp at hp

/-- C6: the message appended last is never evicted by the eviction pass its
own append triggers (it is always the last stored message afterwards), and
appending to an empty (or absent) session a message whose own estimate
exceeds the budget leaves exactly that one message. -/
theorem claim_c6_newest_survives (m : ChatContextManager) (sid : String)
    (msg : ChatMessage) (now : Nat) :
    (sessionMessages (add_message m sid msg now) sid).getLast? = some msg ∧
    (sessionMessages m sid = [] →
      estimateTokens msg.content > m.max_context_tokens →
      sessionMessages (add_message m sid msg now) sid = [msg]) := by
  constructor
  · rw [sessionMessages_add_message]
    rw [getLast?_truncateFrom _ _ (by simp)]
    simp
  · intro h1 h2
    rw [sessionMessages_add_message, h1]
    simp [truncateFrom]

/-- The store this session's `add_message` invariants are exercised on in
the C6 witness: the configured budget is 1 token. -/
def tinyBudgetStore : ChatContextManager :=
  { max_context_tokens := 1, sessions := [] }

/-- An eight-character message, estimated at 2 tokens — over the
1-token budget of `tinyBudgetStore`. -/
def oversizedMsg : ChatMessage :=
  { id := "m-big", role := "user", content := "aaaaaaaa", timestamp := 0, tokens := 2 }

theorem claim_c6_newest_survives_witness :
    sessionMessages tinyBudgetStore "s" = [] ∧
    estimateTokens oversizedMsg.content > tinyBudgetStore.max_context_tokens ∧
    sessionMessages (add_message tinyBudgetStore "s" oversizedMsg 0) "s" =
      [oversizedMsg] :=
  ⟨rfl, by decide,
   (claim_c6_newest_survives tinyBudgetStore "s" oversizedMsg 0).2 rfl (by decide)⟩

/-- C9: `get_context_messages` is exactly the role/content projection of the
stored messages in stored order (so an unknown session yields `[]`, not an
error), and the eviction performed by an append only removes messages from
the head: the stored list after an append is a suffix of the previous list
with the new message at the tail. -/
theorem claim_c9_projection_and_head_eviction (m : ChatContextManager)
    (sid : String) (msg : ChatMessage) (now : Nat) :
    get_context_messages m sid =
      (sessionMessages m sid).map
        (fun msg => { role := msg.role, content := msg.content }) ∧
    (m.sessions.lookup sid = none → get_context_messages m sid = []) ∧
    sessionMessages (add_message m sid msg now) sid <:+
      sessionMessages m sid ++ [msg] := by
  refine ⟨?_, ?_, ?_⟩
  · unfold get_context_messages sessionMessages
    cases m.sessions.lookup sid <;> simp
  · intro h
    unfold get_context_messages
    rw [h]
  · rw [sessionMessages_add_message]
    exact truncateFrom_suffix _ _

theorem claim_c9_witness :
    freshManager.sessions.lookup "s" = none ∧
    get_context_messages freshManager "s" = [] :=
  ⟨rfl, (claim_c9_projection_and_head_eviction freshManager "s" oversizedMsg 0).2.1 rfl⟩

/-- A store holding a session `s` with one user message, for exhibiting the
behaviour of `create_session` on an existing id. -/
def c3Msg : ChatMessage :=
  { id := "m1", role := "user", content := "hello", timestamp := 1, tokens := 1 }

/-- A store with an established session `s` (one message, timestamps 1). -/
def c3Store : ChatContextManager :=
  { max_context_tokens := 6000,
    sessions := [("s",
      { session_id := "s", messages := [c3Msg], created_at := 1,
        last_active := 1, max_context_tokens := 6000 })] }

/-- C3 counterexample: calling `create_session` on the already-present id
`s` is not a no-op — it returns `s` but clears the stored messages and
resets `created_at`, refuting the claim at this concrete input. -/
theorem claim_c3_counterexample :
    sessionMessages c3Store "s" = [c3Msg] ∧
    (create_session c3Store (some "s") "unused-fresh" 5).2 = "s" ∧
    sessionMessages (create_session c3Store (some "s") "unused-fresh" 5).1 "s" = [] ∧
    ((create_session c3Store (some "s") "unused-fresh" 5).1.sessions.lookup "s").map
      ChatSession.created_at = some 5 :=
  ⟨rfl, rfl, rfl, rfl⟩

/-- C3 amended: `create_session` on an explicit id always returns that id
but unconditionally replaces any stored session under it with a fresh empty
one (empty messages, both timestamps set to now, budget reset to the
manager's default) — it is overwriting, not idempotent, creation. -/
theorem claim_c3_amended (m : ChatContextManager) (sid fresh : String)
    (now : Nat) :
    (create_session m (some sid) fresh now).2 = sid ∧
    (create_session m (some sid) fresh now).1.sessions.lookup sid =
      some { session_id := sid, messages := [], created_at := now,
             last_active := now, max_context_tokens := m.max_context_tokens } := by
  constructor
  · rfl
  · exact lookup_insertSession_self sid _ m.sessions

/-- A store whose budget is 2 tokens and whose session `s` already holds one
3-token message, so that the next append triggers an eviction. -/
def c5Store : ChatContextManager :=
  { max_context_tokens := 2,
    sessions := [("s",
      { session_id := "s",
        messages := [{ id := "m0", role := "assistant", content := "aaaaaaaaaaaa",
                       thinking := none, timestamp := 1, tokens := 3 }],
        created_at := 1, last_active := 1, max_context_tokens := 2 })] }

/-- C5 counterexample: with a failing collaborator, the turn returns a
failure result, but because the user append evicted the previous message the
session length stays at 1 — it does not increase by exactly 1, refuting the
claim at this concrete input. -/
theorem claim_c5_counterexample :
    (sessionMessages c5Store "s").length = 1 ∧
    (send_message (fun _ => Except.error "boom") c5Store "s" "bbbbbbbbbbbb"
        "fast_code" none "u1" "a1" 7).2 =
      TurnResult.failure "boom" "s" "fast_code" "unknown" none ∧
    (sessionMessages (send_message (fun _ => Except.error "boom") c5Store "s"
        "bbbbbbbbbbbb" "fast_code" none "u1" "a1" 7).1 "s").length = 1 :=
  ⟨rfl, by decide, by decide⟩

/-- C5 amended: when the collaborator fails, no assistant message is
appended and a failure result (not an exception) is returned; the stored
session is exactly the pre-call session with the user message appended and
the usual eviction pass applied, so the user message always remains as the
last message; the message count increases by exactly 1 whenever that append
stays within the budget (absent eviction), and in general never by 2. -/
theorem claim_c5_amended (e : String) (m : ChatContextManager)
    (sid u mode : String) (custom : Option String) (uu ua : String) (now : Nat) :
    (send_message (fun _ => Except.error e) m sid u mode custom uu ua now).2 =
      TurnResult.failure e sid mode (categorizeError e).1 (categorizeError e).2 ∧
    sessionMessages
        (send_message (fun _ => Except.error e) m sid u mode custom uu ua now).1 sid =
      truncateFrom m.max_context_tokens
        (sessionMessages m sid ++ [mkUserMessage uu u now]) ∧
    (sessionMessages
        (send_message (fun _ => Except.error e) m sid u mode custom uu ua now).1
        sid).getLast? = some (mkUserMessage uu u now) ∧
    (totalTokens (sessionMessages m sid ++ [mkUserMessage uu u now]) ≤
        m.max_context_tokens →
      (sessionMessages
          (send_message (fun _ => Except.error e) m sid u mode custom uu ua now).1
          sid).length = (sessionMessages m sid).length + 1) := by
  rw [send_message_fail]
  have hmsgs :
      sessionMessages
          (add_message (ensure_session m sid now) sid (mkUserMessage uu u now) now)
          sid =
        truncateFrom m.max_context_tokens
          (sessionMessages m sid ++ [mkUserMessage uu u now]) := by
    rw [sessionMessages_add_message, sessionMessages_ensure_session,
      max_ensure_session]
  refine ⟨rfl, hmsgs, ?_, ?_⟩
  · rw [hmsgs, getLast?_truncateFrom _ _ (by simp)]
    simp
  · intro hle
    rw [hmsgs, truncateFrom_of_le _ _ hle]
    simp

theorem claim_c5_amended_witness :
    totalTokens (sessionMessages freshManager "s" ++ [mkUserMessage "u1" "hi" 3]) ≤
      freshManager.max_context_tokens ∧
    (sessionMessages (send_message (fun _ => Except.error "x") freshManager "s"
        "hi" "fast_code" none "u1" "a1" 3).1 "s").length =
      (sessionMessages freshManager "s").length + 1 :=
  ⟨by decide,
   (claim_c5_amended "x" freshManager "s" "hi" "fast_code" none "u1" "a1" 3).2.2.2
     (by decide)⟩

/-- C7: for every collaborator failure with message `e`, the failure result
carries `e` verbatim and the category/retry-delay pair follows the reported
nature of the failure: a rate-limit signal (the lowercased message contains
"rate limit" or "429") gives `rate_limit` with retry delay 60; otherwise an
auth signal ("invalid api key" or "401") gives `auth_error` with no delay;
otherwise a timeout signal ("timeout" or "504") gives `timeout` with delay
30; anything else gives `unknown` with no delay. -/
theorem claim_c7_failure_categories (e : String) (m : ChatContextManager)
    (sid u mode : String) (custom : Option String) (uu ua : String) (now : Nat) :
    (send_message (fun _ => Except.error e) m sid u mode custom uu ua now).2 =
      TurnResult.failure e sid mode
        (if strContains (strLower e) "rate limit" || strContains (strLower e) "429"
         then "rate_limit"
         else if strContains (strLower e) "invalid api key" ||
             strContains (strLower e) "401" then "auth_error"
         else if strContains (strLower e) "timeout" || strContains (strLower e) "504"
         then "timeout"
         else "unknown")
        (if strContains (strLower e) "rate limit" || strContains (strLower e) "429"
         then some 60
         else if strContains (strLower e) "invalid api key" ||
             strContains (strLower e) "401" then none
         else if strContains (strLower e) "timeout" || strContains (strLower e) "504"
         then some 30
         else none) := by
  rw [send_message_fail]
  unfold categorizeError
  by_cases h1 :
      (strContains (strLower e) "rate limit" || strContains (strLower e) "429") = true
  · simp [h1]
  · by_cases h2 :
        (strContains (strLower e) "invalid api key" ||
          strContains (strLower e) "401") = true
    · simp [h1, h2]
    · by_cases h3 :
          (strContains (strLower e) "timeout" || strContains (strLower e) "504") = true
      · simp [h1, h2, h3]
      · simp [h1, h2, h3]

/-- A store whose session `s` already holds a two-message history
(user "one", assistant "two"), for exercising a second turn. -/
def historyStore : ChatContextManager :=
  { max_context_tokens := 6000,
    sessions := [("s",
      { session_id := "s",
        messages := [{ id := "m1", role := "user", content := "one", thinking := none,
                       timestamp := 1, tokens := 0 },
                     { id := "m2", role := "assistant", content := "two", thinking := none,
                       timestamp := 2, tokens := 0 }],
        created_at := 1, last_active := 2, max_context_tokens := 6000 })] }

/-- A collaborator that echoes its own invocation arguments back as the
response content (roles of the messages it received, then whether the
temperature is the 0.7 default, the max_tokens value, and the thinking
flag), so theorems can observe exactly what the client was invoked with. -/
def spyCollab : Collaborator := fun a =>
  Except.ok
    { content :=
        String.intercalate "," (a.messages.map ApiMessage.role) ++ "#" ++
        (if a.temperature = 7 then "temp0p7" else "tempOther") ++ "#" ++
        (if a.max_tokens = 4000 then "max4000" else "maxOther") ++ "#" ++
        (if a.enable_thinking then "think" else "nothink")
      thinking := none }

/-- C2, refuted on the code at a concrete input (the claim matches the
spec's evident intent, so this documents the code defect): on the second
turn of session `s` the assembled context has the three messages
user/assistant/user, and the `fast_code` profile temperature is 0.3, yet
the collaborator — observed through `spyCollab`, which echoes its arguments
— receives only a freshly built `[system, user]` pair together with the
client defaults temperature 0.7 and max_tokens 4000: the assembled
sequence and the profile parameters are never passed down. -/
theorem claim_c2_collaborator_not_given_context :
    (get_context_messages
        (add_message historyStore "s" (mkUserMessage "uX" "three" 9) 9) "s").map
      ApiMessage.role = ["user", "assistant", "user"] ∧
    (getTemplate "fast_code").temperature = 3 ∧
    (send_message spyCollab historyStore "s" "three" "fast_code" none "uX" "aX" 9).2 =
      TurnResult.success "aX" "system,user#temp0p7#max4000#nothink" none
        "fast_code" "s" 3
        (estimateTokens "system,user#temp0p7#max4000#nothink") :=
  ⟨by decide, by decide, by decide⟩

/-- A collaborator that reports the roles of the messages it receives and a
fixed thinking trace. -/
def spyRoles : Collaborator := fun a =>
  Except.ok { content := String.intercalate "," (a.messages.map ApiMessage.role),
              thinking := some "trace" }

/-- C4, refuted on the code at a concrete input (the claim matches the
spec's evident intent, so this documents the code defect): on the second
turn of session `s` — the stored context already holds 2 messages, and 3
after the user append, so the first-turn prepend does not fire — the
collaborator still receives a system message: `thinking_chat` (and likewise
`simple_chat`) builds its own `[system, user]` list on every turn, so the
system prompt is re-sent on every call, not only on turn 1. -/
theorem claim_c4_system_prompt_resent_every_turn :
    (sessionMessages historyStore "s").length = 2 ∧
    (send_message spyRoles historyStore "s" "three" "deep_reasoning" none
        "uY" "aY" 9).2 =
      TurnResult.success "aY" "system,user" (some "trace") "deep_reasoning" "s" 3
        (estimateTokens "system,user") :=
  ⟨by decide, by decide⟩

/-- A collaborator that always succeeds with the fixed response "four". -/
def constCollab : Collaborator := fun _ =>
  Except.ok { content := "four", thinking := none }

/-- C8 counterexample: on a successful second turn the session holds 4
messages after the assistant append, but the returned `context_length` is 3
— the length of the outbound list computed before the assistant message was
appended — refuting the claim that it is the post-append context length. -/
theorem claim_c8_counterexample :
    (send_message constCollab historyStore "s" "three" "fast_code" none
        "uZ" "aZ" 9).2 =
      TurnResult.success "aZ" "four" none "fast_code" "s" 3 (estimateTokens "four") ∧
    (sessionMessages (send_message constCollab historyStore "s" "three"
        "fast_code" none "uZ" "aZ" 9).1 "s").length = 4 :=
  ⟨by decide, by decide⟩

theorem callCollaborator_ok (c : String) (th : Option String) (thinking : Bool)
    (u sp : String) :
    callCollaborator (fun _ => Except.ok { content := c, thinking := th })
        thinking u sp =
      Except.ok (c, if thinking then some (thinkingFallback th) else none) := by
  unfold callCollaborator thinking_chat simple_chat
  cases thinking <;> rfl

/-- C8 amended: on a successful turn the result carries the assistant
message id, the returned content, the reasoning trace exactly when the
profile enables thinking (with the client's placeholder fallback), the
requested mode and session id, the content's token estimate — and as
`context_length` the length of the outbound assembled sequence, i.e. the
session context after the user append (plus the prepended system message on
a first turn) measured before the assistant message is appended. -/
theorem claim_c8_amended (c : String) (th : Option String)
    (m : ChatContextManager) (sid u mode : String) (custom : Option String)
    (uu ua : String) (now : Nat) :
    (send_message (fun _ => Except.ok { content := c, thinking := th }) m sid u
        mode custom uu ua now).2 =
      TurnResult.success ua c
        (if (getTemplate mode).thinking then some (thinkingFallback th) else none)
        mode sid
        (outboundContext
          (get_context_messages
            (add_message (ensure_session m sid now) sid (mkUserMessage uu u now) now)
            sid)
          (resolveSystemPrompt custom (getTemplate mode))).length
        (estimateTokens c) := by
  unfold send_message
  simp only [callCollaborator_ok]

/-- Every message stored in any session of the store has role `user` or
`assistant` — in particular no `system`-role message is persisted. -/
def goodRoles (m : ChatContextManager) : Prop :=
  ∀ p ∈ m.sessions, ∀ msg ∈ p.2.messages,
    msg.role = "user" ∨ msg.role = "assistant"

theorem goodRoles_create (m : ChatContextManager) (osid : Option String)
    (fresh : String) (now : Nat) (h : goodRoles m) :
    goodRoles (create_session m osid fresh now).1 := by
  intro p hp
  simp only [create_session] at hp
  rcases mem_insertSession _ _ _ _ hp with h1 | h1
  · rw [h1]
    intro mm hm
    simp at hm
  · exact h p h1

theorem goodRoles_ensure (m : ChatContextManager) (sid : String) (now : Nat)
    (h : goodRoles m) : goodRoles (ensure_session m sid now) := by
  unfold ensure_session
  split
  · exact goodRoles_create m (some sid) sid now h
  · exact h

theorem goodRoles_add (m : ChatContextManager) (sid : String)
    (msg : ChatMessage) (now : Nat) (h : goodRoles m)
    (hr : msg.role = "user" ∨ msg.role = "assistant") :
    goodRoles (add_message m sid msg now) := by
  cases hl : m.sessions.lookup sid with
  | none =>
      rw [add_message_eq_none m sid msg now hl]
      intro p hp
      rcases mem_insertSession _ _ _ _ hp with h1 | h1
      · rw [h1]
        intro mm hm
        have hs := (truncateFrom_suffix m.max_context_tokens [msg]).sublist.subset hm
        simp only [List.mem_singleton] at hs
        rw [hs]
        exact hr
      · rcases mem_insertSession _ _ _ _ h1 with h2 | h2
        · rw [h2]
          intro mm hm
          simp at hm
        · exact h p h2
  | some s =>
      rw [add_message_eq_some m sid msg now s hl]
      intro p hp
      rcases mem_insertSession _ _ _ _ hp with h1 | h1
      · rw [h1]
        intro mm hm
        have hs := (truncateFrom_suffix _ _).sublist.subset hm
        rcases List.mem_append.1 hs with h3 | h3
        · exact h (sid, s) (mem_of_lookup_eq_some sid s m.sessions hl) mm h3
        · simp only [List.mem_singleton] at h3
          rw [h3]
          exact hr
      · exact h p h1

theorem goodRoles_clear (m : ChatContextManager) (sid : String)
    (h : goodRoles m) : goodRoles (clear_session m sid).1 := by
  unfold clear_session
  split
  · intro p hp
    exact h p (List.mem_of_mem_filter hp)
  · exact h

theorem goodRoles_send (invoke : Collaborator) (m : ChatContextManager)
    (sid u mode : String) (custom : Option String) (uu ua : String) (now : Nat)
    (h : goodRoles m) :
    goodRoles (send_message invoke m sid u mode custom uu ua now).1 := by
  have h₂ : goodRoles
      (add_message (ensure_session m sid now) sid (mkUserMessage uu u now) now) :=
    goodRoles_add _ _ _ _ (goodRoles_ensure m sid now h) (Or.inl rfl)
  unfold send_message
  cases hc : callCollaborator invoke (getTemplate mode).thinking u
      (resolveSystemPrompt custom (getTemplate mode)) with
  | error e =>
      simp only [hc]
      exact h₂
  | ok p =>
      obtain ⟨c, th⟩ := p
      simp only [hc]
      exact goodRoles_add _ _ _ _ h₂ (Or.inr rfl)

/-- C10: starting from the empty store a fresh `ChatService` owns, after any
sequence of service operations (`send_message` with any collaborator, mode,
prompts and clock values, and `clear_session`), every message stored in
every session has role `user` or `assistant`: the system message built on a
first turn exists only in the transient outbound list, and is never
persisted — hence never evicted nor counted against the token budget. -/
theorem claim_c10_no_system_role_stored (ops : List ServiceOp) :
    goodRoles (runOps freshManager ops) := by
  have key : ∀ (l : List ServiceOp) (m : ChatContextManager),
      goodRoles m → goodRoles (runOps m l) := by
    intro l
    induction l with
    | nil => intro m h; exact h
    | cons op rest ih =>
        intro m h
        have h' : goodRoles (runOp m op) := by
          cases op with
          | send invoke sid u mode custom uu ua now =>
              exact goodRoles_send invoke m sid u mode custom uu ua now h
          | clear sid => exact goodRoles_clear m sid h
        exact ih (runOp m op) h'
  refine key ops freshManager ?_
  intro p hp
  simp [freshManager] at hp

theorem claim_c1_eviction_invariant_witness :
    evictionInv (runAppends { max_context_tokens := 1, sessions := [] }
      [("s", oversizedMsg, 0), ("s", oversizedMsg, 1)]) :=
  claim_c1_eviction_invariant 1 [("s", oversizedMsg, 0), ("s", oversizedMsg, 1)]

theorem claim_c3_amended_witness :
    (create_session c3Store (some "s") "f" 5).2 = "s" ∧
    (create_session c3Store (some "s") "f" 5).1.sessions.lookup "s" =
      some { session_id := "s", messages := [], created_at := 5, last_active := 5,
             max_context_tokens := 6000 } :=
  claim_c3_amended c3Store "s" "f" 5

theorem claim_c7_failure_categories_witness :
    (send_message (fun _ => Except.error "Rate limited. Retry after 60 seconds")
        freshManager "s" "hi" "fast_code" none "u1" "a1" 0).2 =
      TurnResult.failure "Rate limited. Retry after 60 seconds" "s" "fast_code"
        "rate_limit" (some 60) := by
  have h := claim_c7_failure_categories "Rate limited. Retry after 60 seconds"
    freshManager "s" "hi" "fast_code" none "u1" "a1" 0
  rw [h]
  decide

theorem claim_c8_amended_witness :
    (send_message (fun _ => Except.ok { content := "four", thinking := none })
        freshManager "s" "hello" "fast_code" none "u1" "a1" 0).2 =
      TurnResult.success "a1" "four" none "fast_code" "s" 2 (estimateTokens "four") := by
  have h := claim_c8_amended "four" none freshManager "s" "hello" "fast_code"
    none "u1" "a1" 0
  rw [h]
  decide

theorem claim_c10_no_system_role_stored_witness :
    goodRoles (runOps freshManager
      [ServiceOp.send constCollab "s" "hi" "fast_code" none "u1" "a1" 0,
       ServiceOp.clear "s"]) :=
  claim_c10_no_system_role_stored
    [ServiceOp.send constCollab "s" "hi" "fast_code" none "u1" "a1" 0,
     ServiceOp.clear "s"]

end ChatServiceModel
